import Mathlib

/-!
Shallow embedding of the wifi-talkie firmware (src/src/main.cpp together with
src/include/config.h) and verification of the half-duplex session-machine
properties stated in the specification.

The firmware keeps its whole session state in global booleans and millisecond
timestamps; `DevState` mirrors those globals one field per variable.  Each C++
function that touches this state is translated into a Lean function of the same
name returning the new state together with the control messages sent over the
websocket (`Msg`) and the hardware calls issued to the I2S driver (`HwOp`).
The Arduino `loop` body is split into its sequential blocks (websocket event
processing, serial commands, debug-transmission timeout, speaker timeout,
button edge handling, audio transmission), composed in source order.
-/

namespace WalkieTalkie

/-- `AUDIO_BUFFER_SIZE` from config.h (samples per buffer/frame). -/
def AUDIO_BUFFER_SIZE : Nat := 512

/-- `AUDIO_GAIN` from main.cpp line 25: 8x amplification. -/
def AUDIO_GAIN : Int := 8

/-- `SPEAKER_TIMEOUT_MS` from main.cpp line 22. -/
def SPEAKER_TIMEOUT_MS : Nat := 300

/-- `DEBUG_TRANSMIT_DURATION` from main.cpp line 18. -/
def DEBUG_TRANSMIT_DURATION : Nat := 3000

/-- The global state of main.cpp: one field per global variable that the
session logic reads or writes.  Timestamps are `millis()` values in `Nat`. -/
structure DevState where
  isConnected : Bool
  isTransmitting : Bool
  buttonPressed : Bool
  isSpeakerMode : Bool
  debugTransmitting : Bool
  debugTransmitStart : Nat
  lastAudioReceived : Nat
deriving DecidableEq, Repr

/-- Messages sent through the websocket: the three JSON control messages and
binary audio frames.  The button-path start/end messages carry no debug field,
modelled as `debug = false`; the debug-path ones set `debug = true`. -/
inductive Msg where
  | register : Msg
  | startTransmission : Bool → Msg
  | endTransmission : Bool → Msg
  | audioFrame : List Int → Msg
deriving DecidableEq, Repr

/-- Calls issued to the I2S hardware driver, in order. -/
inductive HwOp where
  | i2sWrite : List Int → Nat → HwOp
  | zeroDmaBuffer : HwOp
  | driverUninstall : HwOp
  | driverInstall : Bool → HwOp
  | setPin : Bool → HwOp
  | setClk : HwOp
  | playWrite : List Int → HwOp
deriving DecidableEq, Repr

/-- Websocket callback event types (`WStype_t`) that `webSocketEvent`
dispatches on; binary payloads are sample lists. -/
inductive WsEvent where
  | disconnected : WsEvent
  | connected : WsEvent
  | text : WsEvent
  | bin : List Int → WsEvent
  | errorEvent : WsEvent
  | ping : WsEvent
  | pong : WsEvent
deriving DecidableEq, Repr

/-- Result of a state-mutating block: the new global state, the websocket
messages sent and the hardware calls made, in order. -/
structure Effect where
  st : DevState
  msgs : List Msg
  ops : List HwOp
deriving DecidableEq, Repr

/-- State after `setup()`: all flags false, timestamps zero
(globals initialised at lines 10-22, I2S started in mic mode). -/
def initialState : DevState :=
  ⟨false, false, false, false, false, 0, 0⟩

/-- `flushSpeakerWithSilence` (main.cpp lines 81-89): four `i2s_write` calls
of a silence-filled buffer with timeout 10 ticks, then `i2s_zero_dma_buffer`. -/
def flushSpeakerWithSilence : List HwOp :=
  List.replicate 4 (HwOp.i2sWrite (List.replicate AUDIO_BUFFER_SIZE 0) 10)
    ++ [HwOp.zeroDmaBuffer]

/-- `switchToMicMode` (main.cpp lines 91-103): no-op when already in mic mode;
otherwise flush the speaker with silence, then uninstall and reinstall the
driver with the microphone configuration. -/
def switchToMicMode (s : DevState) : DevState × List HwOp :=
  if s.isSpeakerMode = false then (s, [])
  else
    ({s with isSpeakerMode := false},
      flushSpeakerWithSilence ++
        [HwOp.driverUninstall, HwOp.driverInstall true, HwOp.setPin true, HwOp.setClk])

/-- `switchToSpeakerMode` (main.cpp lines 105-114): no-op when already in
speaker mode; otherwise reinstall the driver with the speaker configuration. -/
def switchToSpeakerMode (s : DevState) : DevState × List HwOp :=
  if s.isSpeakerMode = true then (s, [])
  else
    ({s with isSpeakerMode := true},
      [HwOp.driverUninstall, HwOp.driverInstall false, HwOp.setPin false, HwOp.setClk])

/-- `webSocketEvent` (main.cpp lines 169-225).  `now` is `millis()` at the
time the callback runs. -/
def webSocketEvent (s : DevState) (ev : WsEvent) (now : Nat) : Effect :=
  match ev with
  | WsEvent.disconnected => ⟨{s with isConnected := false}, [], []⟩
  | WsEvent.connected => ⟨{s with isConnected := true}, [Msg.register], []⟩
  | WsEvent.text => ⟨s, [], []⟩
  | WsEvent.bin payload =>
      if s.isTransmitting = false ∧ s.debugTransmitting = false then
        let p := switchToSpeakerMode s
        ⟨{p.1 with lastAudioReceived := now}, [], p.2 ++ [HwOp.playWrite payload]⟩
      else ⟨s, [], []⟩
  | WsEvent.errorEvent => ⟨s, [], []⟩
  | WsEvent.ping => ⟨s, [], []⟩
  | WsEvent.pong => ⟨s, [], []⟩

/-- `webSocket.loop()` dispatching the queued events, in order, through
`webSocketEvent`. -/
def wsStage (s : DevState) (evs : List WsEvent) (now : Nat) : Effect :=
  match evs with
  | [] => ⟨s, [], []⟩
  | ev :: rest =>
      let e := webSocketEvent s ev now
      let r := wsStage e.st rest now
      ⟨r.st, e.msgs ++ r.msgs, e.ops ++ r.ops⟩

/-- `applyGain`: the per-sample gain and clipping applied in `transmitAudio`
(main.cpp lines 262-267). -/
def applyGain (x : Int) : Int :=
  let amplified := x * AUDIO_GAIN
  if amplified > 32767 then 32767
  else if amplified < -32768 then -32768
  else amplified

/-- `transmitAudio` (main.cpp lines 253-274): read the microphone; if any
samples were read, amplify with clipping and send them as one binary frame.
`mic` is what `i2s_read` produced this iteration. -/
def transmitAudio (mic : List Int) : List Msg :=
  if 0 < mic.length then [Msg.audioFrame (mic.map applyGain)] else []

/-- `startDebugTransmission` (main.cpp lines 315-338). -/
def startDebugTransmission (s : DevState) (now : Nat) : Effect :=
  if s.isConnected = false then ⟨s, [], []⟩
  else if s.debugTransmitting = true ∨ s.isTransmitting = true then ⟨s, [], []⟩
  else
    let s1 : DevState := {s with debugTransmitting := true, debugTransmitStart := now}
    let p := switchToMicMode s1
    ⟨p.1, [Msg.startTransmission true], p.2⟩

/-- `stopDebugTransmission` (main.cpp lines 340-354). -/
def stopDebugTransmission (s : DevState) : Effect :=
  if s.debugTransmitting = false then ⟨s, [], []⟩
  else ⟨{s with debugTransmitting := false}, [Msg.endTransmission true], []⟩

/-- Serial command dispatch (main.cpp lines 384-400): at most one character
per iteration; `T`/`t` starts and `S`/`s` stops a debug transmission. -/
def serialStage (s : DevState) (c : Option Char) (now : Nat) : Effect :=
  match c with
  | none => ⟨s, [], []⟩
  | some ch =>
      if ch = 'T' ∨ ch = 't' then startDebugTransmission s now
      else if ch = 'S' ∨ ch = 's' then stopDebugTransmission s
      else ⟨s, [], []⟩

/-- Debug-transmission timeout check (main.cpp lines 403-405). -/
def debugTimeoutStage (s : DevState) (now : Nat) : Effect :=
  if s.debugTransmitting = true ∧ DEBUG_TRANSMIT_DURATION ≤ now - s.debugTransmitStart then
    stopDebugTransmission s
  else ⟨s, [], []⟩

/-- Speaker-timeout block (main.cpp lines 410-417): after 300 ms without
inbound audio, switch back to mic mode and clear the timestamp. -/
def speakerTimeoutStage (s : DevState) (now : Nat) : DevState × List HwOp :=
  if s.isSpeakerMode = true ∧ s.isTransmitting = false ∧ s.debugTransmitting = false then
    if 0 < s.lastAudioReceived ∧ SPEAKER_TIMEOUT_MS < now - s.lastAudioReceived then
      let p := switchToMicMode s
      ({p.1 with lastAudioReceived := 0}, p.2)
    else (s, [])
  else (s, [])

/-- Button edge handling (main.cpp lines 419-453): on a press edge, start
transmitting when connected and not debug-transmitting; on a release edge,
stop transmitting if a transmission was running. -/
def buttonStep (s : DevState) (down : Bool) : Effect :=
  if down = true ∧ s.buttonPressed = false then
    let s1 : DevState := {s with buttonPressed := true}
    if s1.isConnected = true ∧ s1.debugTransmitting = false then
      let s2 : DevState := {s1 with isTransmitting := true}
      let p := switchToMicMode s2
      ⟨p.1, [Msg.startTransmission false], p.2⟩
    else ⟨s1, [], []⟩
  else if down = false ∧ s.buttonPressed = true then
    let s1 : DevState := {s with buttonPressed := false}
    if s1.isTransmitting = true then
      ⟨{s1 with isTransmitting := false}, [Msg.endTransmission false], []⟩
    else ⟨s1, [], []⟩
  else ⟨s, [], []⟩

/-- External inputs consumed by one `loop` iteration: the current `millis()`,
whether WiFi is associated, the websocket events delivered by
`webSocket.loop()`, the serial character (if available), the raw button level
and the samples `i2s_read` returns while transmitting. -/
structure LoopInput where
  now : Nat
  wifiConnected : Bool
  wsEvents : List WsEvent
  serial : Option Char
  buttonDown : Bool
  micSamples : List Int
deriving Repr

/-- One iteration of `loop` (main.cpp lines 356-461), composing the blocks in
source order.  Websocket events are only processed while WiFi is associated;
the reconnect branches touch none of the modelled state. -/
def loop (s : DevState) (inp : LoopInput) : Effect :=
  let e1 := if inp.wifiConnected then wsStage s inp.wsEvents inp.now else ⟨s, [], []⟩
  let e2 := serialStage e1.st inp.serial inp.now
  let e3 := debugTimeoutStage e2.st inp.now
  let p4 := speakerTimeoutStage e3.st inp.now
  let e5 := buttonStep p4.1 inp.buttonDown
  let m6 := if (e5.st.isTransmitting || e5.st.debugTransmitting) && e5.st.isConnected
            then transmitAudio inp.micSamples else []
  ⟨e5.st, e1.msgs ++ (e2.msgs ++ (e3.msgs ++ (e5.msgs ++ m6))),
    e1.ops ++ (e2.ops ++ (e3.ops ++ (p4.2 ++ e5.ops)))⟩

/-- Run the firmware from a state over a list of per-iteration inputs,
collecting the messages sent. -/
def run (s : DevState) (inps : List LoopInput) : DevState × List Msg :=
  match inps with
  | [] => (s, [])
  | i :: rest =>
      let e := loop s i
      let r := run e.st rest
      (r.1, e.msgs ++ r.2)

/-- True exactly for `start_transmission` messages. -/
def isStartMsg : Msg → Bool
  | Msg.startTransmission _ => true
  | _ => false

/-- True exactly for `end_transmission` messages. -/
def isEndMsg : Msg → Bool
  | Msg.endTransmission _ => true
  | _ => false

/-- The debug flag of the transmission currently open according to the
state's flags: `some false` for a button transmission, `some true` for a
debug transmission, `none` when no transmission is open. -/
def pending (s : DevState) : Option Bool :=
  if s.isTransmitting = true then some false
  else if s.debugTransmitting = true then some true
  else none

/-- One step of the control-message pairing scanner.  The accumulator is
`none` once pairing has been violated, otherwise `some o` where `o` is the
debug flag of the currently unmatched `start_transmission` (or `none`).
A nested `start`, an `end` without an open `start`, and an `end` whose debug
flag differs from the open `start` all violate pairing. -/
def scanStep (a : Option (Option Bool)) (m : Msg) : Option (Option Bool) :=
  match a with
  | none => none
  | some o =>
      match m with
      | Msg.startTransmission d =>
          match o with
          | none => some (some d)
          | some _ => none
      | Msg.endTransmission d =>
          match o with
          | some e => if e = d then some none else none
          | none => none
      | _ => some o

/-- Scan a message trace for control-message pairing. -/
def scanMsgs (a : Option (Option Bool)) (ms : List Msg) : Option (Option Bool) :=
  ms.foldl scanStep a

/-- The state invariant the firmware maintains: a button transmission and a
debug transmission are never simultaneously active, and a button transmission
implies the button latch is set. -/
def Flags (s : DevState) : Prop :=
  (s.isTransmitting = true → s.debugTransmitting = false)
  ∧ (s.isTransmitting = true → s.buttonPressed = true)

/-- A trace step from state `s` to state `t` emitting `ms` preserves the flag
invariant and extends the pairing scan consistently. -/
def TraceOk (s t : DevState) (ms : List Msg) : Prop :=
  Flags s → (Flags t ∧ scanMsgs (some (pending s)) ms = some (pending t))

/-- Loop input: an idle iteration at time 0 with the button held down. -/
def downInp : LoopInput := ⟨0, true, [], none, true, []⟩

/-- Loop input: an idle iteration at time 0 with the button released. -/
def upInp : LoopInput := ⟨0, true, [], none, false, []⟩

/-- Loop input delivering the websocket-connected event. -/
def connectInp : LoopInput := ⟨0, true, [WsEvent.connected], none, false, []⟩

/-- The state after connecting from the initial state: connected, idle. -/
def readyState : DevState := ⟨true, false, false, false, false, 0, 0⟩

/-- A script of `n` button-down/button-up pairs. -/
def pairScript : Nat → List LoopInput
  | 0 => []
  | n + 1 => downInp :: upInp :: pairScript n

/-! ### Claim C6: gain and clipping -/

/-- Claim C6: for every captured sample `x`, the gain stage of `transmitAudio`
outputs `clamp(x * GAIN, -32768, 32767)`, a pure function of the sample and
the fixed gain constant; with gain 8, input 4096 saturates to 32767 and input
-4096 saturates to -32768. -/
theorem c6_gain_clamp :
    (∀ x : Int, applyGain x = max (-32768) (min 32767 (x * AUDIO_GAIN)))
    ∧ applyGain 4096 = 32767 ∧ applyGain (-4096) = -32768
    ∧ (∀ mic : List Int,
        transmitAudio mic
          = if 0 < mic.length then [Msg.audioFrame (mic.map applyGain)] else []) := by
  refine ⟨fun x => ?_, by decide, by decide, fun mic => rfl⟩
  simp only [applyGain, AUDIO_GAIN]
  rw [max_def, min_def]
  split_ifs <;> omega

/-! ### Claim C7: mode-switch idempotence -/

/-- Claim C7: switching to the audio mode already active is a no-op: the state
is unchanged and no hardware call is made. -/
theorem c7_mode_switch_idempotent (s : DevState) :
    (s.isSpeakerMode = false → switchToMicMode s = (s, []))
    ∧ (s.isSpeakerMode = true → switchToSpeakerMode s = (s, [])) := by
  constructor <;> intro h <;> simp [switchToMicMode, switchToSpeakerMode, h]

/-- Witness for C7 at concrete states in each mode. -/
theorem c7_mode_switch_idempotent_witness :
    switchToMicMode initialState = (initialState, [])
    ∧ switchToSpeakerMode ⟨false, false, false, true, false, 0, 0⟩
        = (⟨false, false, false, true, false, 0, 0⟩, []) :=
  ⟨(c7_mode_switch_idempotent initialState).1 rfl,
   (c7_mode_switch_idempotent ⟨false, false, false, true, false, 0, 0⟩).2 rfl⟩

/-! ### Claim C8: playback-to-capture drain -/

/-- Claim C8: every switch from playback to capture first writes four
silence-filled frames with a short (10-tick) timeout, then force-clears the
DMA buffer, and only then reconfigures the driver. -/
theorem c8_playback_to_capture_drains (s : DevState) (h : s.isSpeakerMode = true) :
    (switchToMicMode s).2
      = (List.replicate 4 (HwOp.i2sWrite (List.replicate AUDIO_BUFFER_SIZE 0) 10)
          ++ [HwOp.zeroDmaBuffer])
        ++ [HwOp.driverUninstall, HwOp.driverInstall true, HwOp.setPin true, HwOp.setClk]
    ∧ (switchToMicMode s).1 = {s with isSpeakerMode := false} := by
  simp [switchToMicMode, h, flushSpeakerWithSilence]

/-- Witness for C8 at a concrete playback-mode state. -/
theorem c8_playback_to_capture_drains_witness :
    (switchToMicMode ⟨true, false, false, true, false, 0, 9⟩).2
      = (List.replicate 4 (HwOp.i2sWrite (List.replicate AUDIO_BUFFER_SIZE 0) 10)
          ++ [HwOp.zeroDmaBuffer])
        ++ [HwOp.driverUninstall, HwOp.driverInstall true, HwOp.setPin true, HwOp.setClk]
    ∧ (switchToMicMode ⟨true, false, false, true, false, 0, 9⟩).1
        = {(⟨true, false, false, true, false, 0, 9⟩ : DevState) with isSpeakerMode := false} :=
  c8_playback_to_capture_drains ⟨true, false, false, true, false, 0, 9⟩ rfl

/-! ### Claim C10: stop-debug when inactive is a no-op -/

/-- Claim C10: when no debug transmission is active, `stopDebugTransmission`
(and hence the serial `S` command) changes no state variable and emits no
message or hardware call. -/
theorem c10_stop_debug_noop (s : DevState) (now : Nat) (h : s.debugTransmitting = false) :
    stopDebugTransmission s = ⟨s, [], []⟩
    ∧ serialStage s (some 'S') now = ⟨s, [], []⟩ := by
  constructor
  · simp [stopDebugTransmission, h]
  · simp only [serialStage]
    rw [if_neg (by decide), if_pos (by decide)]
    simp [stopDebugTransmission, h]

/-- Witness for C10 at the initial state. -/
theorem c10_stop_debug_noop_witness :
    stopDebugTransmission initialState = ⟨initialState, [], []⟩
    ∧ serialStage initialState (some 'S') 42 = ⟨initialState, [], []⟩ :=
  c10_stop_debug_noop initialState 42 rfl

/-! ### Claim C1 (corrected): disconnect mid-transmission -/

/-- Claim C1 counterexample: a websocket disconnect arriving while the device
is in LocalTransmit (isTransmitting) does NOT force the session to Idle — the
transmitting flag stays set — and the subsequent button release still emits an
end_transmission message. -/
theorem c1_counterexample :
    (webSocketEvent ⟨true, true, true, false, false, 0, 0⟩ WsEvent.disconnected 5).st.isTransmitting
      = true
    ∧ Msg.endTransmission false
        ∈ (loop ⟨false, true, true, false, false, 0, 0⟩ ⟨6, true, [], none, false, []⟩).msgs := by
  decide

/-- Claim C1 amended: a disconnect event only clears the connected flag: the
session flags (isTransmitting, debugTransmitting), the audio path and the
timers are all unchanged, and no message or hardware call is emitted at
disconnect time; a later button release while still marked transmitting still
attempts an end_transmission send. -/
theorem c1_amended (s : DevState) (now : Nat) :
    webSocketEvent s WsEvent.disconnected now = ⟨{s with isConnected := false}, [], []⟩
    ∧ Msg.endTransmission false
        ∈ (loop ⟨false, true, true, false, false, 0, 0⟩ ⟨6, true, [], none, false, []⟩).msgs :=
  ⟨rfl, by decide⟩

/-! ### Claim C2 (corrected): transmit-request while busy -/

/-- Claim C2 counterexample: with RemoteReceive active (speaker mode, audio
50 ms ago) a button press is NOT dropped: the very same loop iteration enters
LocalTransmit and sends start_transmission. -/
theorem c2_counterexample :
    (loop ⟨true, false, false, true, false, 0, 100⟩ ⟨150, true, [], none, true, []⟩).st.isTransmitting
      = true
    ∧ Msg.startTransmission false
        ∈ (loop ⟨true, false, false, true, false, 0, 100⟩ ⟨150, true, [], none, true, []⟩).msgs := by
  decide

/-- Claim C2 amended: a transmit-request is dropped (no session transition, no
start_transmission) only when a LOCAL transmission is already active: the
debug trigger returns immediately if either transmitting flag is set, a
button press during a debug transmission only latches the button, and a press
while the button is already held produces no edge.  A transmit-request during
RemoteReceive (speaker mode, no local transmission) is NOT dropped: it
preempts the reception and sends start_transmission. -/
theorem c2_amended :
    (∀ (s : DevState) (now : Nat), s.debugTransmitting = true ∨ s.isTransmitting = true →
        startDebugTransmission s now = ⟨s, [], []⟩)
    ∧ (∀ s : DevState, s.debugTransmitting = true → s.buttonPressed = false →
        buttonStep s true = ⟨{s with buttonPressed := true}, [], []⟩)
    ∧ (∀ s : DevState, s.buttonPressed = true → buttonStep s true = ⟨s, [], []⟩)
    ∧ (∀ s : DevState, s.isConnected = true → s.debugTransmitting = false →
        s.buttonPressed = false → s.isSpeakerMode = true →
        (buttonStep s true).st.isTransmitting = true
          ∧ (buttonStep s true).msgs = [Msg.startTransmission false]) := by
  refine ⟨fun s now h => ?_, fun s hd hb => ?_, fun s hb => ?_, fun s hc hd hb hm => ?_⟩
  · by_cases hc : s.isConnected = false
    · simp [startDebugTransmission, hc]
    · simp [startDebugTransmission, hc, h]
  · simp [buttonStep, hb, hd]
  · simp [buttonStep, hb]
  · simp [buttonStep, hb, hc, hd, switchToMicMode, hm]

/-- Witness for C2 amended, applying each conjunct at a concrete state. -/
theorem c2_amended_witness :
    startDebugTransmission ⟨true, true, true, false, false, 0, 0⟩ 3
        = ⟨⟨true, true, true, false, false, 0, 0⟩, [], []⟩
    ∧ buttonStep ⟨true, false, false, false, true, 0, 0⟩ true
        = ⟨⟨true, false, true, false, true, 0, 0⟩, [], []⟩
    ∧ buttonStep ⟨true, true, true, false, false, 0, 0⟩ true
        = ⟨⟨true, true, true, false, false, 0, 0⟩, [], []⟩
    ∧ (buttonStep ⟨true, false, false, true, false, 0, 100⟩ true).st.isTransmitting = true
    ∧ (buttonStep ⟨true, false, false, true, false, 0, 100⟩ true).msgs
        = [Msg.startTransmission false] := by
  refine ⟨c2_amended.1 ⟨true, true, true, false, false, 0, 0⟩ 3 (Or.inr rfl), ?_,
    c2_amended.2.2.1 ⟨true, true, true, false, false, 0, 0⟩ rfl, ?_, ?_⟩
  · exact c2_amended.2.1 ⟨true, false, false, false, true, 0, 0⟩ rfl rfl
  · exact (c2_amended.2.2.2 ⟨true, false, false, true, false, 0, 100⟩ rfl rfl rfl rfl).1
  · exact (c2_amended.2.2.2 ⟨true, false, false, true, false, 0, 100⟩ rfl rfl rfl rfl).2

/-! ### Claim C9 (corrected): inbound frame handling -/

/-- Claim C9 counterexample: an inbound binary message with a genuinely EMPTY
payload still resets the silence timer (lastAudioReceived goes from 0 to the
arrival time 7), contradicting the claim that an empty payload does not reset
it. -/
theorem c9_counterexample :
    (webSocketEvent ⟨true, false, false, false, false, 0, 0⟩ (WsEvent.bin []) 7).st.lastAudioReceived
      = 7 := by
  decide

/-- Claim C9 amended: no well-formedness check is performed on inbound binary
messages.  While no local transmission is active, EVERY inbound binary
message — empty payload included — resets the silence timer and puts the path
in playback mode; while a local transmission is active the message is ignored
entirely.  No control message is ever emitted for an inbound frame. -/
theorem c9_amended (s : DevState) (payload : List Int) (now : Nat) :
    (webSocketEvent s (WsEvent.bin payload) now).st.lastAudioReceived
      = (if s.isTransmitting = false ∧ s.debugTransmitting = false then now
         else s.lastAudioReceived)
    ∧ (webSocketEvent s (WsEvent.bin payload) now).msgs = []
    ∧ (s.isTransmitting = false ∧ s.debugTransmitting = false →
        (webSocketEvent s (WsEvent.bin payload) now).st.isSpeakerMode = true)
    ∧ (¬(s.isTransmitting = false ∧ s.debugTransmitting = false) →
        webSocketEvent s (WsEvent.bin payload) now = ⟨s, [], []⟩) := by
  by_cases h : s.isTransmitting = false ∧ s.debugTransmitting = false
  · refine ⟨?_, ?_, fun _ => ?_, fun hn => absurd h hn⟩
    · simp [webSocketEvent, h]
    · simp [webSocketEvent, h]
    · by_cases hm : s.isSpeakerMode = true <;>
        simp [webSocketEvent, h, switchToSpeakerMode, hm]
  · exact ⟨by simp [webSocketEvent, h], by simp [webSocketEvent, h],
      fun hp => absurd hp h, fun _ => by simp [webSocketEvent, h]⟩

/-- Witness for C9 amended: an empty payload at time 9 resets the timer and
engages playback; while transmitting the same message is ignored. -/
theorem c9_amended_witness :
    (webSocketEvent ⟨true, false, false, false, false, 0, 3⟩ (WsEvent.bin []) 9).st.lastAudioReceived
      = 9
    ∧ (webSocketEvent ⟨true, false, false, false, false, 0, 3⟩ (WsEvent.bin []) 9).st.isSpeakerMode
      = true
    ∧ webSocketEvent ⟨true, true, true, false, false, 0, 3⟩ (WsEvent.bin [1]) 9
      = ⟨⟨true, true, true, false, false, 0, 3⟩, [], []⟩ := by
  have h1 := c9_amended ⟨true, false, false, false, false, 0, 3⟩ [] 9
  have h2 := c9_amended ⟨true, true, true, false, false, 0, 3⟩ [1] 9
  refine ⟨?_, h1.2.2.1 ⟨rfl, rfl⟩, h2.2.2.2 (by simp)⟩
  rw [h1.1]
  simp

/-! ### Claim C4: no outbound frame unless connected -/

theorem webSocketEvent_no_audioFrame (s : DevState) (ev : WsEvent) (now : Nat) (f : List Int) :
    Msg.audioFrame f ∉ (webSocketEvent s ev now).msgs := by
  cases ev <;> simp [webSocketEvent, apply_ite Effect.msgs]

theorem wsStage_no_audioFrame (evs : List WsEvent) :
    ∀ (s : DevState) (now : Nat) (f : List Int), Msg.audioFrame f ∉ (wsStage s evs now).msgs := by
  induction evs with
  | nil => intro s now f; simp [wsStage]
  | cons ev rest ih =>
      intro s now f h
      simp only [wsStage, List.mem_append] at h
      rcases h with h | h
      · exact webSocketEvent_no_audioFrame s ev now f h
      · exact ih _ now f h

theorem startDebugTransmission_no_audioFrame (s : DevState) (now : Nat) (f : List Int) :
    Msg.audioFrame f ∉ (startDebugTransmission s now).msgs := by
  simp only [startDebugTransmission]
  split
  · simp
  · split <;> simp

theorem stopDebugTransmission_no_audioFrame (s : DevState) (f : List Int) :
    Msg.audioFrame f ∉ (stopDebugTransmission s).msgs := by
  simp only [stopDebugTransmission]
  split <;> simp

theorem serialStage_no_audioFrame (s : DevState) (c : Option Char) (now : Nat) (f : List Int) :
    Msg.audioFrame f ∉ (serialStage s c now).msgs := by
  cases c with
  | none => simp [serialStage]
  | some ch =>
      simp only [serialStage]
      split
      · exact startDebugTransmission_no_audioFrame _ _ _
      · split
        · exact stopDebugTransmission_no_audioFrame _ _
        · simp

theorem debugTimeoutStage_no_audioFrame (s : DevState) (now : Nat) (f : List Int) :
    Msg.audioFrame f ∉ (debugTimeoutStage s now).msgs := by
  simp only [debugTimeoutStage]
  split
  · exact stopDebugTransmission_no_audioFrame _ _
  · simp

theorem buttonStep_no_audioFrame (s : DevState) (down : Bool) (f : List Int) :
    Msg.audioFrame f ∉ (buttonStep s down).msgs := by
  simp only [buttonStep]
  split
  · split <;> simp
  · split
    · split <;> simp
    · simp

theorem wsGate_no_audioFrame {b : Bool} {s : DevState} {evs : List WsEvent} {now : Nat}
    {f : List Int} :
    Msg.audioFrame f ∉ (if b then wsStage s evs now else (⟨s, [], []⟩ : Effect)).msgs := by
  cases b
  · simp
  · simp only [if_pos rfl]
    exact wsStage_no_audioFrame _ _ _ _

theorem audioGate_connected {t : DevState} {mic : List Int} {f : List Int}
    (h : Msg.audioFrame f
          ∈ (if (t.isTransmitting || t.debugTransmitting) && t.isConnected
             then transmitAudio mic else [])) :
    t.isConnected = true := by
  revert h
  split
  · next hcond =>
      intro _
      simp only [Bool.and_eq_true] at hcond
      exact hcond.2
  · simp

/-- Claim C4: an outbound audio frame appears in the messages of a loop
iteration only if `isConnected` holds at the point of sending — equivalently,
in the state the iteration ends in, since no later block of the iteration
changes `isConnected`. -/
theorem c4_no_frame_unless_connected (s : DevState) (inp : LoopInput) (f : List Int)
    (h : Msg.audioFrame f ∈ (loop s inp).msgs) :
    (loop s inp).st.isConnected = true := by
  simp only [loop, List.mem_append] at h ⊢
  rcases h with h | h | h | h | h
  · exact absurd h wsGate_no_audioFrame
  · exact absurd h (serialStage_no_audioFrame _ _ _ _)
  · exact absurd h (debugTimeoutStage_no_audioFrame _ _ _)
  · exact absurd h (buttonStep_no_audioFrame _ _ _)
  · exact audioGate_connected h

/-- Witness for C4: a connected, transmitting iteration does send a frame,
and the theorem then yields connectedness. -/
theorem c4_no_frame_unless_connected_witness :
    Msg.audioFrame [24]
      ∈ (loop ⟨true, true, true, false, false, 0, 0⟩ ⟨50, true, [], none, true, [3]⟩).msgs
    ∧ (loop ⟨true, true, true, false, false, 0, 0⟩ ⟨50, true, [], none, true, [3]⟩).st.isConnected
      = true :=
  ⟨by decide,
   c4_no_frame_unless_connected ⟨true, true, true, false, false, 0, 0⟩
     ⟨50, true, [], none, true, [3]⟩ [24] (by decide)⟩

/-! ### Claim C5: silence-timeout boundary -/

/-- Claim C5: in RemoteReceive (speaker mode, no local transmission) with the
last inbound frame at time `L > 0`, a new inbound frame arriving at `L + 299`
keeps the device in speaker mode with the silence timer rebased, while a
frameless iteration at `L + 301` switches back to mic mode (capture), leaving
the session idle with the timer cleared. -/
theorem c5_silence_timeout_boundary (s : DevState) (payload : List Int)
    (hm : s.isSpeakerMode = true) (ht : s.isTransmitting = false)
    (hd : s.debugTransmitting = false) (hl : 0 < s.lastAudioReceived) :
    ((loop s ⟨s.lastAudioReceived + 299, true, [WsEvent.bin payload], none, false, []⟩).st.isSpeakerMode
        = true
      ∧ (loop s ⟨s.lastAudioReceived + 299, true, [WsEvent.bin payload], none, false, []⟩).st.isTransmitting
        = false
      ∧ (loop s ⟨s.lastAudioReceived + 299, true, [WsEvent.bin payload], none, false, []⟩).st.lastAudioReceived
        = s.lastAudioReceived + 299)
    ∧ ((loop s ⟨s.lastAudioReceived + 301, true, [], none, false, []⟩).st.isSpeakerMode = false
      ∧ (loop s ⟨s.lastAudioReceived + 301, true, [], none, false, []⟩).st.isTransmitting = false
      ∧ (loop s ⟨s.lastAudioReceived + 301, true, [], none, false, []⟩).st.debugTransmitting = false
      ∧ (loop s ⟨s.lastAudioReceived + 301, true, [], none, false, []⟩).st.lastAudioReceived = 0
      ∧ HwOp.driverInstall true
          ∈ (loop s ⟨s.lastAudioReceived + 301, true, [], none, false, []⟩).ops) := by
  obtain ⟨c, tx, bp, sm, dbg, ds, la⟩ := s
  simp only at hm ht hd hl
  subst hm ht hd
  cases bp <;>
    simp [loop, wsStage, webSocketEvent, switchToSpeakerMode, switchToMicMode,
      serialStage, debugTimeoutStage, speakerTimeoutStage, buttonStep,
      flushSpeakerWithSilence, SPEAKER_TIMEOUT_MS, DEBUG_TRANSMIT_DURATION,
      Nat.sub_self, Nat.add_sub_cancel_left, hl]

/-- Witness for C5 at a concrete RemoteReceive state with the last frame at
time 1000. -/
theorem c5_silence_timeout_boundary_witness :
    ((loop ⟨true, false, false, true, false, 0, 1000⟩
        ⟨1299, true, [WsEvent.bin [5]], none, false, []⟩).st.isSpeakerMode = true
      ∧ (loop ⟨true, false, false, true, false, 0, 1000⟩
          ⟨1299, true, [WsEvent.bin [5]], none, false, []⟩).st.isTransmitting = false
      ∧ (loop ⟨true, false, false, true, false, 0, 1000⟩
          ⟨1299, true, [WsEvent.bin [5]], none, false, []⟩).st.lastAudioReceived = 1299)
    ∧ ((loop ⟨true, false, false, true, false, 0, 1000⟩
          ⟨1301, true, [], none, false, []⟩).st.isSpeakerMode = false
      ∧ (loop ⟨true, false, false, true, false, 0, 1000⟩
          ⟨1301, true, [], none, false, []⟩).st.isTransmitting = false
      ∧ (loop ⟨true, false, false, true, false, 0, 1000⟩
          ⟨1301, true, [], none, false, []⟩).st.debugTransmitting = false
      ∧ (loop ⟨true, false, false, true, false, 0, 1000⟩
          ⟨1301, true, [], none, false, []⟩).st.lastAudioReceived = 0
      ∧ HwOp.driverInstall true
          ∈ (loop ⟨true, false, false, true, false, 0, 1000⟩
              ⟨1301, true, [], none, false, []⟩).ops) :=
  c5_silence_timeout_boundary ⟨true, false, false, true, false, 0, 1000⟩ [5]
    rfl rfl rfl (by decide)

/-! ### Claim C3: control-message pairing -/

@[simp] theorem switchToMicMode_fst_isConnected (s : DevState) :
    (switchToMicMode s).1.isConnected = s.isConnected := by
  unfold switchToMicMode; split <;> rfl

@[simp] theorem switchToMicMode_fst_isTransmitting (s : DevState) :
    (switchToMicMode s).1.isTransmitting = s.isTransmitting := by
  unfold switchToMicMode; split <;> rfl

@[simp] theorem switchToMicMode_fst_debugTransmitting (s : DevState) :
    (switchToMicMode s).1.debugTransmitting = s.debugTransmitting := by
  unfold switchToMicMode; split <;> rfl

@[simp] theorem switchToMicMode_fst_buttonPressed (s : DevState) :
    (switchToMicMode s).1.buttonPressed = s.buttonPressed := by
  unfold switchToMicMode; split <;> rfl

@[simp] theorem switchToSpeakerMode_fst_isConnected (s : DevState) :
    (switchToSpeakerMode s).1.isConnected = s.isConnected := by
  unfold switchToSpeakerMode; split <;> rfl

@[simp] theorem switchToSpeakerMode_fst_isTransmitting (s : DevState) :
    (switchToSpeakerMode s).1.isTransmitting = s.isTransmitting := by
  unfold switchToSpeakerMode; split <;> rfl

@[simp] theorem switchToSpeakerMode_fst_debugTransmitting (s : DevState) :
    (switchToSpeakerMode s).1.debugTransmitting = s.debugTransmitting := by
  unfold switchToSpeakerMode; split <;> rfl

@[simp] theorem switchToSpeakerMode_fst_buttonPressed (s : DevState) :
    (switchToSpeakerMode s).1.buttonPressed = s.buttonPressed := by
  unfold switchToSpeakerMode; split <;> rfl

theorem traceOk_comp {s t u : DevState} {ms1 ms2 : List Msg}
    (h1 : TraceOk s t ms1) (h2 : TraceOk t u ms2) : TraceOk s u (ms1 ++ ms2) := by
  intro hf
  obtain ⟨f1, sc1⟩ := h1 hf
  obtain ⟨f2, sc2⟩ := h2 f1
  refine ⟨f2, ?_⟩
  unfold scanMsgs at sc1 sc2 ⊢
  rw [List.foldl_append, sc1, sc2]

theorem traceOk_comp_nil {s t u : DevState} {ms : List Msg}
    (h1 : TraceOk s t []) (h2 : TraceOk t u ms) : TraceOk s u ms := by
  intro hf
  obtain ⟨f1, sc1⟩ := h1 hf
  obtain ⟨f2, sc2⟩ := h2 f1
  simp only [scanMsgs, List.foldl_nil] at sc1
  refine ⟨f2, ?_⟩
  rw [scanMsgs, sc1]
  exact sc2

theorem traceOk_silent {s t : DevState}
    (h1 : t.isTransmitting = s.isTransmitting) (h2 : t.debugTransmitting = s.debugTransmitting)
    (h3 : t.buttonPressed = s.buttonPressed ∨ t.buttonPressed = true ∨ t.isTransmitting = false) :
    TraceOk s t [] := by
  intro hf
  constructor
  · constructor
    · intro ht
      rw [h2]
      exact hf.1 (by rw [← h1]; exact ht)
    · intro ht
      rcases h3 with h3 | h3 | h3
      · rw [h3]
        exact hf.2 (by rw [← h1]; exact ht)
      · exact h3
      · simp [h3] at ht
  · unfold scanMsgs pending
    simp [h1, h2]

theorem traceOk_webSocketEvent (s : DevState) (ev : WsEvent) (now : Nat) :
    TraceOk s (webSocketEvent s ev now).st (webSocketEvent s ev now).msgs := by
  cases ev with
  | disconnected => exact traceOk_silent rfl rfl (Or.inl rfl)
  | connected =>
      intro hf
      refine ⟨hf, ?_⟩
      simp [webSocketEvent, scanMsgs, scanStep, pending]
  | text => exact traceOk_silent rfl rfl (Or.inl rfl)
  | bin p =>
      simp only [webSocketEvent]
      split
      · exact traceOk_silent (by simp) (by simp) (Or.inl (by simp))
      · exact traceOk_silent rfl rfl (Or.inl rfl)
  | errorEvent => exact traceOk_silent rfl rfl (Or.inl rfl)
  | ping => exact traceOk_silent rfl rfl (Or.inl rfl)
  | pong => exact traceOk_silent rfl rfl (Or.inl rfl)

theorem traceOk_wsStage (evs : List WsEvent) :
    ∀ (s : DevState) (now : Nat), TraceOk s (wsStage s evs now).st (wsStage s evs now).msgs := by
  induction evs with
  | nil => intro s now; exact traceOk_silent rfl rfl (Or.inl rfl)
  | cons ev rest ih =>
      intro s now
      exact traceOk_comp (traceOk_webSocketEvent s ev now) (ih _ now)

theorem traceOk_startDebugTransmission (s : DevState) (now : Nat) :
    TraceOk s (startDebugTransmission s now).st (startDebugTransmission s now).msgs := by
  simp only [startDebugTransmission]
  split
  · exact traceOk_silent rfl rfl (Or.inl rfl)
  · split
    · exact traceOk_silent rfl rfl (Or.inl rfl)
    · next hg =>
        intro hf
        push_neg at hg
        obtain ⟨hd, ht⟩ := hg
        have hd' : s.debugTransmitting = false := by
          revert hd; cases s.debugTransmitting <;> simp
        have ht' : s.isTransmitting = false := by
          revert ht; cases s.isTransmitting <;> simp
        constructor
        · constructor <;> intro h <;> simp [ht'] at h
        · simp [scanMsgs, scanStep, pending, ht', hd']

theorem traceOk_stopDebugTransmission (s : DevState) :
    TraceOk s (stopDebugTransmission s).st (stopDebugTransmission s).msgs := by
  simp only [stopDebugTransmission]
  split
  · exact traceOk_silent rfl rfl (Or.inl rfl)
  · next hg =>
      intro hf
      have hd : s.debugTransmitting = true := by
        revert hg; cases s.debugTransmitting <;> simp
      have ht : s.isTransmitting = false := by
        cases htx : s.isTransmitting
        · rfl
        · exact absurd (hf.1 htx) (by simp [hd])
      constructor
      · constructor <;> intro h <;> simp [ht] at h
      · simp [scanMsgs, scanStep, pending, ht, hd]

theorem traceOk_serialStage (s : DevState) (c : Option Char) (now : Nat) :
    TraceOk s (serialStage s c now).st (serialStage s c now).msgs := by
  cases c with
  | none => exact traceOk_silent rfl rfl (Or.inl rfl)
  | some ch =>
      simp only [serialStage]
      split
      · exact traceOk_startDebugTransmission s now
      · split
        · exact traceOk_stopDebugTransmission s
        · exact traceOk_silent rfl rfl (Or.inl rfl)

theorem traceOk_debugTimeoutStage (s : DevState) (now : Nat) :
    TraceOk s (debugTimeoutStage s now).st (debugTimeoutStage s now).msgs := by
  simp only [debugTimeoutStage]
  split
  · exact traceOk_stopDebugTransmission s
  · exact traceOk_silent rfl rfl (Or.inl rfl)

theorem traceOk_speakerTimeoutStage (s : DevState) (now : Nat) :
    TraceOk s (speakerTimeoutStage s now).1 [] := by
  simp only [speakerTimeoutStage]
  split
  · split
    · exact traceOk_silent (switchToMicMode_fst_isTransmitting s)
        (switchToMicMode_fst_debugTransmitting s) (Or.inl (switchToMicMode_fst_buttonPressed s))
    · exact traceOk_silent rfl rfl (Or.inl rfl)
  · exact traceOk_silent rfl rfl (Or.inl rfl)

theorem traceOk_buttonStep (s : DevState) (down : Bool) :
    TraceOk s (buttonStep s down).st (buttonStep s down).msgs := by
  simp only [buttonStep]
  split
  · next hedge =>
      obtain ⟨hdown, hbp⟩ := hedge
      split
      · next hg =>
          intro hf
          have hd : s.debugTransmitting = false := hg.2
          have ht : s.isTransmitting = false := by
            cases htx : s.isTransmitting
            · rfl
            · exact absurd (hf.2 htx) (by simp [hbp])
          constructor
          · constructor <;> intro _
            · simpa using hd
            · simp
          · simp [scanMsgs, scanStep, pending, ht, hd]
      · exact traceOk_silent rfl rfl (Or.inr (Or.inl rfl))
  · split
    · next hrel =>
        split
        · next htx =>
            intro hf
            have htx' : s.isTransmitting = true := htx
            have hd : s.debugTransmitting = false := hf.1 htx'
            constructor
            · constructor <;> intro h <;> simp at h
            · simp [scanMsgs, scanStep, pending, htx', hd]
        · next htx =>
            have ht0 : s.isTransmitting = false := by
              revert htx; cases s.isTransmitting <;> simp
            exact traceOk_silent rfl rfl (Or.inr (Or.inr ht0))
    · exact traceOk_silent rfl rfl (Or.inl rfl)

theorem traceOk_wsGate (s : DevState) (b : Bool) (evs : List WsEvent) (now : Nat) :
    TraceOk s (if b then wsStage s evs now else (⟨s, [], []⟩ : Effect)).st
      (if b then wsStage s evs now else (⟨s, [], []⟩ : Effect)).msgs := by
  cases b
  · simp only [Bool.false_eq_true, if_false]
    exact traceOk_silent rfl rfl (Or.inl rfl)
  · simp only [if_pos rfl]
    exact traceOk_wsStage evs s now

theorem traceOk_audioGate (t : DevState) (b : Bool) (mic : List Int) :
    TraceOk t t (if b then transmitAudio mic else []) := by
  intro hf
  refine ⟨hf, ?_⟩
  cases b
  · simp [scanMsgs]
  · simp only [if_pos rfl]
    by_cases hm : 0 < mic.length
    · simp [transmitAudio, hm, scanMsgs, scanStep]
    · simp [transmitAudio, hm, scanMsgs]

theorem traceOk_loop (s : DevState) (inp : LoopInput) :
    TraceOk s (loop s inp).st (loop s inp).msgs := by
  exact traceOk_comp (traceOk_wsGate s inp.wifiConnected inp.wsEvents inp.now)
    (traceOk_comp (traceOk_serialStage _ inp.serial inp.now)
      (traceOk_comp (traceOk_debugTimeoutStage _ inp.now)
        (traceOk_comp_nil (traceOk_speakerTimeoutStage _ inp.now)
          (traceOk_comp (traceOk_buttonStep _ inp.buttonDown)
            (traceOk_audioGate _ _ inp.micSamples)))))

theorem traceOk_run (inps : List LoopInput) :
    ∀ s : DevState, TraceOk s (run s inps).1 (run s inps).2 := by
  induction inps with
  | nil => intro s; exact traceOk_silent rfl rfl (Or.inl rfl)
  | cons i rest ih =>
      intro s
      exact traceOk_comp (traceOk_loop s i) (ih (loop s i).st)

theorem run_cons (s : DevState) (i : LoopInput) (rest : List LoopInput) :
    run s (i :: rest)
      = ((run (loop s i).st rest).1, (loop s i).msgs ++ (run (loop s i).st rest).2) := rfl

theorem loop_readyState_down :
    loop readyState downInp
      = ⟨⟨true, true, true, false, false, 0, 0⟩, [Msg.startTransmission false], []⟩ := by
  decide

theorem loop_txState_up :
    loop ⟨true, true, true, false, false, 0, 0⟩ upInp
      = ⟨readyState, [Msg.endTransmission false], []⟩ := by
  decide

theorem loop_initial_connect :
    loop initialState connectInp = ⟨readyState, [Msg.register], []⟩ := by
  decide

@[simp] theorem isStartMsg_start (d : Bool) : isStartMsg (Msg.startTransmission d) = true := rfl

@[simp] theorem isStartMsg_end (d : Bool) : isStartMsg (Msg.endTransmission d) = false := rfl

@[simp] theorem isStartMsg_register : isStartMsg Msg.register = false := rfl

@[simp] theorem isEndMsg_start (d : Bool) : isEndMsg (Msg.startTransmission d) = false := rfl

@[simp] theorem isEndMsg_end (d : Bool) : isEndMsg (Msg.endTransmission d) = true := rfl

@[simp] theorem isEndMsg_register : isEndMsg Msg.register = false := rfl

theorem run_pairScript (n : Nat) :
    (run readyState (pairScript n)).1 = readyState
    ∧ ((run readyState (pairScript n)).2.filter (fun m => isStartMsg m)).length = n
    ∧ ((run readyState (pairScript n)).2.filter (fun m => isEndMsg m)).length = n := by
  induction n with
  | zero => exact ⟨rfl, rfl, rfl⟩
  | succ k ih =>
      obtain ⟨h1, h2, h3⟩ := ih
      have e1 : run readyState (pairScript (k + 1))
          = ((run readyState (pairScript k)).1,
             Msg.startTransmission false
               :: (Msg.endTransmission false :: (run readyState (pairScript k)).2)) := by
        simp only [pairScript, run_cons, loop_readyState_down, loop_txState_up]
        simp
      rw [e1]
      refine ⟨h1, ?_, ?_⟩ <;> simp [List.filter_cons, h2, h3]

/-- Claim C3: over every input trace from the initial state, the pairing scan
of the emitted messages succeeds — every `start_transmission` is followed,
before any other `start_transmission`, by exactly one `end_transmission` with
matching debug flag, no `end_transmission` is ever emitted without an open
`start_transmission`, and the residual open transmission matches the final
state's flags.  Moreover a scripted connect followed by `n` button-down/up
pairs yields exactly `n` start and `n` end messages. -/
theorem c3_control_message_pairing :
    (∀ inps : List LoopInput,
        scanMsgs (some none) (run initialState inps).2
          = some (pending (run initialState inps).1))
    ∧ (∀ n : Nat,
        ((run initialState (connectInp :: pairScript n)).2.filter
            (fun m => isStartMsg m)).length = n
        ∧ ((run initialState (connectInp :: pairScript n)).2.filter
            (fun m => isEndMsg m)).length = n) := by
  constructor
  · intro inps
    have h := traceOk_run inps initialState ⟨fun hx => (nomatch hx), fun hx => (nomatch hx)⟩
    have hp : (some (pending initialState) : Option (Option Bool)) = some none := rfl
    rw [← hp]
    exact h.2
  · intro n
    obtain ⟨h1, h2, h3⟩ := run_pairScript n
    have e1 : run initialState (connectInp :: pairScript n)
        = ((run readyState (pairScript n)).1,
           Msg.register :: (run readyState (pairScript n)).2) := by
      simp only [run_cons, loop_initial_connect]
      simp
    rw [e1]
    constructor <;> simp [List.filter_cons, h2, h3]

end WalkieTalkie
